import Mathlib

/-!
# Verification of the PDF-to-editable-document application

Shallow embedding of the repository's client code:

* `src/components/Editor.tsx` — document validation (`isValidContent`),
  the default document constant, the node-id attribute helper
  (`addNodeId`), the math node's `renderHTML`, the editor's `onUpdate`
  handler and the content-synchronisation `useEffect`.
* `src/components/SubmitPdf.tsx` — the upload/convert drop handler
  (`onDrop`) and the imperative accessors exposed through the ref.

JavaScript values exchanged between these functions are modelled by the
inductive type `Json` below (objects are ordered association lists with
unique keys, matching JS property-insertion order, which is what
`JSON.stringify` serialises).  External collaborators that are not part
of the repository (the tiptap editing engine, the `katex` renderer) are
modelled abstractly, universally quantified over their behaviour.
-/

/-- A JavaScript/JSON value.  Objects keep their fields in property
insertion order (the order `JSON.stringify` serialises); keys are
assumed unique, as they are for any object produced by `JSON.parse` or
`editor.getJSON()`.  Numbers are modelled as integers — no claim
depends on fractional values. -/
inductive Json where
  | null
  | bool (b : Bool)
  | num (n : Int)
  | str (s : String)
  | arr (elems : List Json)
  | obj (fields : List (String × Json))
deriving Repr

/-- JavaScript truthiness of a value: `null`, `false`, `0` and `""` are
falsy; every object and array is truthy. -/
def Json.truthy : Json → Bool
  | .null => false
  | .bool b => b
  | .num n => n != 0
  | .str s => s != ""
  | .arr _ => true
  | .obj _ => true

/-- JavaScript `typeof v === "object"`: true for `null`, arrays and
plain objects, false for booleans, numbers and strings. -/
def Json.isObjectType : Json → Bool
  | .null => true
  | .arr _ => true
  | .obj _ => true
  | .bool _ => false
  | .num _ => false
  | .str _ => false

/-- Property access `v.k` on a non-null value: a present object field
yields its value, anything else yields `undefined` (`none`).  (Access
on `null` throws in JS and is handled separately at its use site.) -/
def Json.getField (j : Json) (k : String) : Option Json :=
  match j with
  | .obj fs => (fs.find? (fun p => p.1 == k)).map (fun p => p.2)
  | _ => none

/-- `Array.isArray`. -/
def Json.isArray : Json → Bool
  | .arr _ => true
  | _ => false

mutual

/-- Decidable equality for `Json` (the nested `List` occurrences prevent
automatic derivation). -/
def Json.decEq : (a b : Json) → Decidable (a = b)
  | .null, .null => isTrue rfl
  | .bool a, .bool b =>
      if h : a = b then isTrue (by rw [h]) else isFalse (fun hh => h (by injection hh))
  | .num a, .num b =>
      if h : a = b then isTrue (by rw [h]) else isFalse (fun hh => h (by injection hh))
  | .str a, .str b =>
      if h : a = b then isTrue (by rw [h]) else isFalse (fun hh => h (by injection hh))
  | .arr as, .arr bs =>
      match Json.decEqList as bs with
      | isTrue h => isTrue (by rw [h])
      | isFalse h => isFalse (fun hh => h (by injection hh))
  | .obj fs, .obj gs =>
      match Json.decEqFields fs gs with
      | isTrue h => isTrue (by rw [h])
      | isFalse h => isFalse (fun hh => h (by injection hh))
  | .null, .bool _ => isFalse (fun h => by cases h)
  | .null, .num _ => isFalse (fun h => by cases h)
  | .null, .str _ => isFalse (fun h => by cases h)
  | .null, .arr _ => isFalse (fun h => by cases h)
  | .null, .obj _ => isFalse (fun h => by cases h)
  | .bool _, .null => isFalse (fun h => by cases h)
  | .bool _, .num _ => isFalse (fun h => by cases h)
  | .bool _, .str _ => isFalse (fun h => by cases h)
  | .bool _, .arr _ => isFalse (fun h => by cases h)
  | .bool _, .obj _ => isFalse (fun h => by cases h)
  | .num _, .null => isFalse (fun h => by cases h)
  | .num _, .bool _ => isFalse (fun h => by cases h)
  | .num _, .str _ => isFalse (fun h => by cases h)
  | .num _, .arr _ => isFalse (fun h => by cases h)
  | .num _, .obj _ => isFalse (fun h => by cases h)
  | .str _, .null => isFalse (fun h => by cases h)
  | .str _, .bool _ => isFalse (fun h => by cases h)
  | .str _, .num _ => isFalse (fun h => by cases h)
  | .str _, .arr _ => isFalse (fun h => by cases h)
  | .str _, .obj _ => isFalse (fun h => by cases h)
  | .arr _, .null => isFalse (fun h => by cases h)
  | .arr _, .bool _ => isFalse (fun h => by cases h)
  | .arr _, .num _ => isFalse (fun h => by cases h)
  | .arr _, .str _ => isFalse (fun h => by cases h)
  | .arr _, .obj _ => isFalse (fun h => by cases h)
  | .obj _, .null => isFalse (fun h => by cases h)
  | .obj _, .bool _ => isFalse (fun h => by cases h)
  | .obj _, .num _ => isFalse (fun h => by cases h)
  | .obj _, .str _ => isFalse (fun h => by cases h)
  | .obj _, .arr _ => isFalse (fun h => by cases h)

/-- Decidable equality for lists of `Json` values. -/
def Json.decEqList : (as bs : List Json) → Decidable (as = bs)
  | [], [] => isTrue rfl
  | [], _ :: _ => isFalse (fun h => by cases h)
  | _ :: _, [] => isFalse (fun h => by cases h)
  | a :: as, b :: bs =>
      match Json.decEq a b with
      | isFalse h => isFalse (fun hh => h (by injection hh))
      | isTrue h1 =>
          match Json.decEqList as bs with
          | isTrue h2 => isTrue (by rw [h1, h2])
          | isFalse h2 => isFalse (fun hh => h2 (by injection hh))

/-- Decidable equality for `Json` object field lists. -/
def Json.decEqFields : (fs gs : List (String × Json)) → Decidable (fs = gs)
  | [], [] => isTrue rfl
  | [], _ :: _ => isFalse (fun h => by cases h)
  | _ :: _, [] => isFalse (fun h => by cases h)
  | (k, v) :: fs, (l, w) :: gs =>
      if hk : k = l then
        match Json.decEq v w with
        | isFalse h => isFalse (fun hh => by
            cases hh
            exact h rfl)
        | isTrue hv =>
            match Json.decEqFields fs gs with
            | isTrue h2 => isTrue (by rw [hk, hv, h2])
            | isFalse h2 => isFalse (fun hh => h2 (by injection hh))
      else isFalse (fun hh => by
        cases hh
        exact hk rfl)

end

instance : DecidableEq Json := Json.decEq

/-- One character of a `JSON.stringify` string literal: quote and
backslash are escaped; other characters used by this application are
emitted verbatim. -/
def escapeChar (c : Char) : String :=
  if c = '"' then "\\\"" else if c = '\\' then "\\\\" else String.singleton c

/-- A `JSON.stringify` string literal. -/
def escapeString (s : String) : String :=
  "\"" ++ String.join (s.data.map escapeChar) ++ "\""

mutual

/-- `JSON.stringify`: serialises a value, emitting object fields in
property insertion order — so two deeply equal objects whose keys were
inserted in different orders serialise to different strings. -/
def Json.stringify : Json → String
  | .null => "null"
  | .bool true => "true"
  | .bool false => "false"
  | .num n => toString n
  | .str s => escapeString s
  | .arr es => "[" ++ Json.stringifyList es ++ "]"
  | .obj fs => "\x7b" ++ Json.stringifyFields fs ++ "\x7d"

/-- Comma-separated serialisation of array elements. -/
def Json.stringifyList : List Json → String
  | [] => ""
  | [j] => Json.stringify j
  | j :: rest => Json.stringify j ++ "," ++ Json.stringifyList rest

/-- Comma-separated serialisation of object fields, in order. -/
def Json.stringifyFields : List (String × Json) → String
  | [] => ""
  | [(k, v)] => escapeString k ++ ":" ++ Json.stringify v
  | (k, v) :: rest =>
      escapeString k ++ ":" ++ Json.stringify v ++ "," ++ Json.stringifyFields rest

end

mutual

/-- Deep structural equality of two JavaScript values in the sense of
the specification's glossary ("deep value equality of two Document
trees ignoring reference identity"): objects compare as finite maps, so
field order is irrelevant; arrays compare pointwise. -/
def deepEqual : Json → Json → Bool
  | .obj fs, .obj gs => fs.length == gs.length && deepEqualFieldsIn fs gs
  | .arr as, .arr bs => deepEqualList as bs
  | .null, .null => true
  | .bool a, .bool b => a == b
  | .num a, .num b => a == b
  | .str a, .str b => a == b
  | _, _ => false

/-- Pointwise deep equality of two arrays. -/
def deepEqualList : List Json → List Json → Bool
  | [], [] => true
  | a :: as, b :: bs => deepEqual a b && deepEqualList as bs
  | _, _ => false

/-- Every field of `fs` is present in `gs` with a deeply equal value. -/
def deepEqualFieldsIn : List (String × Json) → List (String × Json) → Bool
  | [], _ => true
  | (k, v) :: rest, gs =>
      (match (gs.find? (fun p => p.1 == k)).map (fun p => p.2) with
       | some w => deepEqual v w
       | none => false) && deepEqualFieldsIn rest gs

end

mutual

/-- JavaScript `String(v)` coercion, as used by `new Error(v)` when a
non-string value reaches the error path. -/
def jsString : Json → String
  | .str s => s
  | .num n => toString n
  | .bool true => "true"
  | .bool false => "false"
  | .null => "null"
  | .obj _ => "[object Object]"
  | .arr es => jsStringList es

/-- `String` coercion of an array: element coercions joined by commas,
with `null` elements rendered empty, flattening nested arrays. -/
def jsStringList : List Json → String
  | [] => ""
  | [.null] => ""
  | [j] => jsString j
  | .null :: rest => "," ++ jsStringList rest
  | j :: rest => jsString j ++ "," ++ jsStringList rest

end

/-! ## Document model (`src/components/Editor.tsx`) -/

/-- `defaultContent` (Editor.tsx:106-115): a document holding one empty
paragraph containing one empty text run. -/
def defaultContent : Json :=
  .obj [("type", .str "doc"),
        ("content", .arr
          [.obj [("type", .str "paragraph"),
                 ("content", .arr [.obj [("type", .str "text"), ("text", .str "")]])]])]

/-- `isValidContent` (Editor.tsx:119-126):
`content && typeof content === "object" && content.type === "doc" &&
Array.isArray(content.content)`.  The `content.type === "doc"` check
compares the `type` property (or `undefined` when absent) against the
string `"doc"`; `Array.isArray` checks the `content` property. -/
def isValidContent (content : Json) : Bool :=
  content.truthy && content.isObjectType
    && (content.getField "type" == some (.str "doc"))
    && (match content.getField "content" with
        | some v => v.isArray
        | none => false)

/-! ## Editing surface and sync controller -/

/-- Modelled from the spec: the Editing Surface is backed by the tiptap
editor engine, which is an external dependency, not code under `src/`.
Per §4.4 of the spec it exposes `getCurrentDocument` (`editor.getJSON()`)
and `replaceContent` (`editor.commands.setContent(content, false)`), the
latter forcibly setting the internal state as a deterministic function
of the supplied content.  Theorems quantify over every such surface. -/
structure Surface (E : Type) where
  getJSON : E → Json
  setContent : Json → E

/-- The Sync Controller: the body of the `useEffect` at
Editor.tsx:338-358, run with a mounted editor whose current state is
`st`.  Mirrors the source: the whole body is guarded by
`if (editor && content)`, so a falsy `content` does nothing; a valid
`content` is compared against `JSON.stringify` of the current document
and `setContent(content, false)` is issued only when the two serialised
strings differ; an invalid truthy `content` is replaced by
`defaultContent`.  Returns the resulting editor state together with
whether a `setContent` (replaceContent) call was issued. -/
def syncEffect {E : Type} (S : Surface E) (content : Json) (st : E) : E × Bool :=
  if content.truthy then
    if isValidContent content then
      if Json.stringify content != Json.stringify (S.getJSON st) then
        (S.setContent content, true)
      else
        (st, false)
    else
      (S.setContent defaultContent, true)
  else
    (st, false)

/-- The editor's `onUpdate` handler (Editor.tsx:325-334): serialise the
editor (`editor.getJSON()`, which may throw — modelled as an `Except`),
and invoke `onChange` only when the result passes `isValidContent`; a
serialisation exception is caught (logged) and `onChange` is skipped.
Returns the value passed to `onChange`, or `none` when it is not
invoked. -/
def onUpdate (getJSONResult : Except String Json) : Option Json :=
  match getJSONResult with
  | .error _ => none
  | .ok jsonContent => if isValidContent jsonContent then some jsonContent else none

/-! ## Node identity (`addNodeId`, Editor.tsx:130-143) -/

/-- The HTML attributes produced by the `renderHTML` of the shared `id`
attribute. -/
structure RenderedIdAttrs where
  dataNodeId : String
  dataNodeTooltip : String
deriving Repr, DecidableEq

/-- `addNodeId`'s `renderHTML` (Editor.tsx:135-142): computes
`const id = attributes.id || uuidv4()` and returns the two HTML
attributes built from it.  `attrId` is the node's stored `id` attribute
(`none` models `null`, its default); `fresh` is the value `uuidv4()`
returns if this call evaluates it.  The function's only output is the
returned HTML attribute map — it does not write anything back into the
node's attribute storage. -/
def addNodeId_renderHTML (attrId : Option String) (fresh : String) : RenderedIdAttrs :=
  let i := match attrId with
    | some s => if s != "" then s else fresh
    | none => fresh
  { dataNodeId := i, dataNodeTooltip := "Node ID: " ++ i }

/-! ## Formula rendering (`Math.renderHTML`, Editor.tsx:82-100) -/

/-- The options object passed to `katex.renderToString` at
Editor.tsx:88-93. -/
structure KatexOptions where
  throwOnError : Bool
  displayMode : Bool
  output : String
  strict : Bool
deriving Repr, DecidableEq

/-- Modelled from the spec: `katex.renderToString` is external library
code, not under `src/`.  Per the spec (§4.3 and the error-tolerant-mode
clause) parsing a formula may fail on malformed input; on failure the
renderer throws exactly when `throwOnError` is set, and otherwise
returns best-effort error markup.  The parser's behaviour is left
abstract: `parse` yields `some markup` on success and `none` on a parse
failure, and `errorMarkup` is whatever fragment the error-tolerant mode
produces. -/
def katexRenderToString (parse : String → Option String)
    (errorMarkup : String → String) (formula : String)
    (opts : KatexOptions) : Except String String :=
  match parse formula with
  | some html => .ok html
  | none =>
      if opts.throwOnError then .error ("KaTeX parse error: " ++ formula)
      else .ok (errorMarkup formula)

/-- The options literal at Editor.tsx:89-93: `throwOnError: false,
displayMode: true, output: "html", strict: false`. -/
def mathRenderOptions : KatexOptions :=
  { throwOnError := false, displayMode := true, output := "html", strict := false }

/-- `Math.renderHTML` (Editor.tsx:82-100), restricted to its formula
rendering: reads `node.attrs.formula` (`none` models a null/absent
attribute) and calls `katex.renderToString(formula || "", {...})` with
the error-tolerant options.  The surrounding DOM assembly cannot throw
and is omitted. -/
def mathRenderHTML (parse : String → Option String)
    (errorMarkup : String → String) (formula : Option String) : Except String String :=
  let f := match formula with
    | some s => if s != "" then s else ""
    | none => ""
  katexRenderToString parse errorMarkup f mathRenderOptions

/-! ## Upload/convert workflow (`src/components/SubmitPdf.tsx`) -/

/-- The component's state triple: `data` (the stored conversion result,
`none` modelling `null`), `error` (the error message, `""` meaning no
error) and `isLoading`. -/
structure SubmitState where
  data : Option Json
  error : String
  isLoading : Bool
deriving Repr, DecidableEq

/-- A dropped file, as far as `onDrop` inspects it: its declared media
type (`""` when the browser supplies none). -/
structure DroppedFile where
  type : String
deriving Repr, DecidableEq

/-- The outcome of `response.json()` on the conversion response. -/
inductive BodyParse where
  | parsed (result : Json)
  | parseFail (msg : String)
deriving Repr, DecidableEq

/-- The outcome of the `fetch` to `/api/py/convert`: either the
transport rejects (network error, or the 5-minute `AbortSignal.timeout`
firing — both surface as a thrown exception whose message is `msg`), or
a response arrives with `response.ok` status flag and a body. -/
inductive FetchOutcome where
  | transportError (msg : String)
  | response (ok : Bool) (body : BodyParse)
deriving Repr, DecidableEq

/-- The observable result of running the drop handler to completion:
the final component state, the number of network requests issued, and
the list of values passed to the `onContentChange` observer. -/
structure DropResult where
  state : SubmitState
  networkCalls : Nat
  notifications : List Json
deriving Repr, DecidableEq

/-- The message of the `Error` thrown for a non-PDF file
(SubmitPdf.tsx:41). -/
def wrongTypeError : String := "Please upload a PDF file"

/-- The generic message used when a failure response carries no truthy
`error` field (SubmitPdf.tsx:68). -/
def genericConvertError : String := "Failed to convert PDF"

/-- The `TypeError` message produced when `result.error` is read off a
JSON `null` body (the browser message names the accessed property; the
model keeps its stable prefix). -/
def nullFieldAccessError : String := "Cannot read properties of null"

/-- `result.error || 'Failed to convert PDF'` coerced to the thrown
`Error`'s message, for a non-null `result`: a truthy `error` field is
used (via `String` coercion), anything else falls back to the generic
message. -/
def errorFieldMessage (result : Json) : String :=
  match result.getField "error" with
  | some v => if v.truthy then jsString v else genericConvertError
  | none => genericConvertError

/-- `SubmitPdf.onDrop` (SubmitPdf.tsx:31-76), run to completion on one
dropped file, with the fetch outcome supplied as a parameter.  Mirrors
the source: the handler first resets `error` to `""`, `data` to `null`
and `isLoading` to `true` (discarding the prior state); inside the
`try` it throws for a non-PDF media type (`!file.type || file.type !==
'application/pdf'`) before any network call; otherwise it issues the
fetch, awaits `response.json()` (which runs before the `ok` check and
may itself throw on a non-JSON body), throws `result.error || 'Failed
to convert PDF'` on a non-ok status, and on success stores the result
and notifies `onContentChange` once.  The `catch` stores the thrown
error's message; the `finally` always clears `isLoading`. -/
def onDrop (file : DroppedFile) (outcome : FetchOutcome) (_prior : SubmitState) :
    DropResult :=
  if file.type == "" || file.type != "application/pdf" then
    ⟨⟨none, wrongTypeError, false⟩, 0, []⟩
  else
    match outcome with
    | .transportError msg => ⟨⟨none, msg, false⟩, 1, []⟩
    | .response ok body =>
      match body with
      | .parseFail msg => ⟨⟨none, msg, false⟩, 1, []⟩
      | .parsed result =>
        if !ok then
          match result with
          | .null => ⟨⟨none, nullFieldAccessError, false⟩, 1, []⟩
          | _ => ⟨⟨none, errorFieldMessage result, false⟩, 1, []⟩
        else
          ⟨⟨some result, "", false⟩, 1, [result]⟩

/-- The `getHtml` accessor exposed through the ref
(SubmitPdf.tsx:25): returns the stored `data`. -/
def getHtml (s : SubmitState) : Option Json := s.data

/-- The `clearHtml` accessor (SubmitPdf.tsx:26): sets `data` to null. -/
def clearHtml (s : SubmitState) : SubmitState := { s with data := none }

/-- The `isConverting` accessor (SubmitPdf.tsx:27). -/
def isConverting (s : SubmitState) : Bool := s.isLoading

/-- The `getError` accessor (SubmitPdf.tsx:28): `error || null`. -/
def getError (s : SubmitState) : Option String :=
  if s.error != "" then some s.error else none

/-! ## Concrete fixtures used by witnesses and counterexamples -/

/-- A well-formed empty document with fields in the order
`editor.getJSON()` produces them. -/
def docA : Json := .obj [("type", .str "doc"), ("content", .arr [])]

/-- The same document as `docA` but with its two fields inserted in the
opposite order: deeply equal to `docA`, yet `JSON.stringify` serialises
it differently. -/
def docB : Json := .obj [("content", .arr []), ("type", .str "doc")]

/-- A concrete editing surface whose internal state is the serialised
document itself: `getJSON` reads it back and `setContent` overwrites
it.  Used to instantiate the surface-generic theorems. -/
def idSurface : Surface Json := ⟨fun j => j, fun j => j⟩

/-! ## Shared lemmas -/

/-- A value passing `isValidContent` is truthy (the predicate's first
conjunct). -/
theorem truthy_of_isValidContent {v : Json} (h : isValidContent v = true) :
    v.truthy = true := by
  unfold isValidContent at h
  simp only [Bool.and_eq_true] at h
  exact h.1.1.1

/-- The sync effect's structural-equality short circuit, in the form the
code implements it: a valid external value whose `JSON.stringify`
serialisation coincides with that of the current document triggers no
`setContent` call. -/
theorem syncEffect_noop_of_stringify_eq {E : Type} (S : Surface E) (content : Json)
    (st : E) (hv : isValidContent content = true)
    (he : Json.stringify content = Json.stringify (S.getJSON st)) :
    syncEffect S content st = (st, false) := by
  unfold syncEffect
  rw [truthy_of_isValidContent hv, hv, he]
  simp

/-! ## Specification-side definitions for refinement claims -/

/-- The specification's description of document well-formedness (spec
§3): the value is a (non-null) object, its `type` field equals `"doc"`,
and its `content` field is an array — nothing about the children. -/
def isValidContent_specDescription (v : Json) : Prop :=
  (∃ fs, v = Json.obj fs) ∧ v.getField "type" = some (.str "doc") ∧
    ∃ es, v.getField "content" = some (.arr es)

/-! ## Claim theorems -/

/-- Claim C6 (confirmed): `isValidContent(value)` returns true if and
only if `value` is a non-null object whose `type` field equals `"doc"`
and whose `content` field is an array, with no recursive validation of
child node kinds; in particular `isValidContent({})`,
`isValidContent(null)` and `isValidContent({type:"doc"})` without a
`content` field all return false. -/
theorem isValidContent_characterisation :
    (∀ v : Json, isValidContent v = true ↔ isValidContent_specDescription v) ∧
    isValidContent (.obj []) = false ∧
    isValidContent Json.null = false ∧
    isValidContent (.obj [("type", .str "doc")]) = false := by
  refine ⟨fun v => ?_, by decide, by decide, by decide⟩
  constructor
  · intro h
    cases v with
    | obj fs =>
        unfold isValidContent at h
        simp only [Bool.and_eq_true, beq_iff_eq] at h
        obtain ⟨⟨⟨-, -⟩, hty⟩, hc⟩ := h
        refine ⟨⟨fs, rfl⟩, hty, ?_⟩
        revert hc
        cases hco : (Json.obj fs).getField "content" with
        | none => intro hc; cases hc
        | some w =>
            cases w <;> intro hc <;> first
              | exact ⟨_, rfl⟩
              | cases hc
    | null => cases h
    | bool b => cases b <;> cases h
    | num n =>
        unfold isValidContent at h
        simp only [Bool.and_eq_true] at h
        cases h.1.1.2
    | str s =>
        unfold isValidContent at h
        simp only [Bool.and_eq_true] at h
        cases h.1.1.2
    | arr es =>
        unfold isValidContent at h
        simp only [Bool.and_eq_true, beq_iff_eq] at h
        cases h.1.2
  · rintro ⟨⟨fs, rfl⟩, hty, es, hco⟩
    unfold isValidContent
    simp only [Bool.and_eq_true, beq_iff_eq]
    exact ⟨⟨⟨rfl, rfl⟩, hty⟩, by rw [hco]; rfl⟩

/-- Witness for C6: the default document satisfies both sides of the
characterisation. -/
theorem isValidContent_characterisation_witness :
    isValidContent_specDescription defaultContent :=
  (isValidContent_characterisation.1 defaultContent).mp (by decide)

/-- Claim C3 (code bug): the freshly generated identifier is claimed to
be memoized in the node's own attribute storage so that repeated
renders display the same id.  In the code, `addNodeId`'s `renderHTML`
computes `attributes.id || uuidv4()` anew on every call and returns
only HTML attributes — by its type it writes nothing back into the
node's attributes — so two renders of a node whose `id` attribute is
still `null` display the two distinct fresh identifiers the collision-
free generator produced, not one memoized id. -/
theorem addNodeId_regenerates_fresh_id :
    (addNodeId_renderHTML none "8c5a6b1e").dataNodeId = "8c5a6b1e" ∧
    (addNodeId_renderHTML none "2f9d4e7a").dataNodeId = "2f9d4e7a" ∧
    (addNodeId_renderHTML none "8c5a6b1e").dataNodeId ≠
      (addNodeId_renderHTML none "2f9d4e7a").dataNodeId ∧
    (∀ s : String, s ≠ "" → ∀ fresh : String,
      (addNodeId_renderHTML (some s) fresh).dataNodeId = s) := by
  refine ⟨by decide, by decide, by decide, fun s hs fresh => ?_⟩
  unfold addNodeId_renderHTML
  simp [hs]

/-- Witness for C3's theorem: its universally quantified clause applied
to a concrete already-assigned id. -/
theorem addNodeId_regenerates_fresh_id_witness :
    (addNodeId_renderHTML (some "keep-me") "ignored").dataNodeId = "keep-me" :=
  addNodeId_regenerates_fresh_id.2.2.2 "keep-me" (by decide) "ignored"

/-- Claim C7 (confirmed): for every formula attribute value, including
the empty string and formulas any parser behaviour rejects, the math
node's `renderHTML` invocation of the formula renderer returns markup
without raising: `throwOnError` is hard-wired to `false`, so the result
is `ok` for every parser and error-markup behaviour. -/
theorem mathRenderHTML_never_throws :
    ∀ (parse : String → Option String) (errorMarkup : String → String)
      (formula : Option String),
      ∃ html, mathRenderHTML parse errorMarkup formula = Except.ok html := by
  intro parse errorMarkup formula
  unfold mathRenderHTML katexRenderToString mathRenderOptions
  cases formula with
  | none =>
      cases hp : parse "" with
      | some html => exact ⟨html, by simp [hp]⟩
      | none => exact ⟨errorMarkup "", by simp [hp]⟩
  | some s =>
      by_cases hs : s != ""
      · cases hp : parse s with
        | some html => exact ⟨html, by simp [hs, hp]⟩
        | none => exact ⟨errorMarkup s, by simp [hs, hp]⟩
      · cases hp : parse "" with
        | some html => exact ⟨html, by simp [hs, hp]⟩
        | none => exact ⟨errorMarkup "", by simp [hs, hp]⟩

/-- Claim C9 (confirmed): the `onUpdate` handler invokes `onChange` only
with a freshly serialised document that passes `isValidContent`, and a
serialisation exception is caught so that it never propagates and
`onChange` is not invoked. -/
theorem onUpdate_emits_only_valid :
    (∀ e : String, onUpdate (Except.error e) = none) ∧
    (∀ (r : Except String Json) (j : Json), onUpdate r = some j →
      r = Except.ok j ∧ isValidContent j = true) := by
  refine ⟨fun e => rfl, fun r j h => ?_⟩
  cases r with
  | error e => cases h
  | ok c =>
      simp only [onUpdate] at h
      by_cases hv : isValidContent c
      · rw [if_pos hv] at h
        obtain rfl := Option.some.inj h
        exact ⟨rfl, hv⟩
      · rw [if_neg hv] at h
        cases h

/-- Witness for C9: the handler run on a serialisation that yields the
default document. -/
theorem onUpdate_emits_only_valid_witness :
    (Except.ok defaultContent : Except String Json) = Except.ok defaultContent ∧
      isValidContent defaultContent = true :=
  onUpdate_emits_only_valid.2 (Except.ok defaultContent) defaultContent (by decide)

/-- Claim C10 (confirmed): after the drop handler runs to completion —
rejection, success, transport failure, timeout, or unparseable body —
the `isConverting` accessor reads false: the `finally` block resets the
loading flag on every path. -/
theorem onDrop_always_resets_loading :
    ∀ (file : DroppedFile) (outcome : FetchOutcome) (s : SubmitState),
      isConverting (onDrop file outcome s).state = false := by
  intro file outcome s
  unfold onDrop isConverting
  split
  · rfl
  · cases outcome with
    | transportError msg => rfl
    | response ok body =>
        cases body with
        | parseFail msg => rfl
        | parsed result => cases ok <;> cases result <;> rfl

/-- Claim C1, counterexample: `docB` passes `isValidContent` and is
deeply structurally equal (in the specification's glossary sense, which
ignores object key order) to the surface's current serialised document
`docA`, yet the sync effect issues a `setContent` call, because the
code compares `JSON.stringify` strings and the two serialisations
differ in key order. -/
theorem syncEffect_deepEqual_counterexample :
    isValidContent docB = true ∧
    deepEqual docB (idSurface.getJSON docA) = true ∧
    (syncEffect idSurface docB docA).2 = true := by decide

/-- Claim C1 (corrected): for every externally supplied document value
that passes `isValidContent` and whose `JSON.stringify` serialisation
is identical to that of the Editing Surface's current serialised
document, the sync effect performs no `setContent` call; invoking the
effect repeatedly with the same external value leaves the surface's
state unchanged after the first reconciliation, for every surface
implementation; and an `onUpdate`-emitted document fed back as the
external value triggers no replacement. -/
theorem syncEffect_short_circuit :
    (∀ (E : Type) (S : Surface E) (content : Json) (st : E),
        isValidContent content = true →
        Json.stringify content = Json.stringify (S.getJSON st) →
        syncEffect S content st = (st, false)) ∧
    (∀ (E : Type) (S : Surface E) (content : Json) (st : E),
        (syncEffect S content (syncEffect S content st).1).1 =
          (syncEffect S content st).1) ∧
    (∀ (E : Type) (S : Surface E) (st : E) (j : Json),
        onUpdate (Except.ok (S.getJSON st)) = some j →
        syncEffect S j st = (st, false)) := by
  refine ⟨fun E S content st hv he => syncEffect_noop_of_stringify_eq S content st hv he,
          fun E S content st => ?_, fun E S st j h => ?_⟩
  · by_cases ht : content.truthy
    · by_cases hv : isValidContent content
      · by_cases hne : Json.stringify content != Json.stringify (S.getJSON st)
        · simp only [syncEffect, ht, hv, hne, if_true]
          by_cases h2 :
              Json.stringify content !=
                Json.stringify (S.getJSON (S.setContent content)) <;>
            simp [h2]
        · simp [syncEffect, ht, hv, hne]
      · simp [syncEffect, ht, hv]
    · simp [syncEffect, ht]
  · simp only [onUpdate] at h
    by_cases hv : isValidContent (S.getJSON st)
    · rw [if_pos hv] at h
      obtain rfl := Option.some.inj h
      exact syncEffect_noop_of_stringify_eq S _ st hv rfl
    · rw [if_neg hv] at h
      cases h

/-- Witness for C1's theorem: the short circuit and the echo clause
instantiated on the identity surface holding `docA`, and the default
document respectively. -/
theorem syncEffect_short_circuit_witness :
    syncEffect idSurface docA docA = (docA, false) ∧
    syncEffect idSurface defaultContent defaultContent = (defaultContent, false) :=
  ⟨syncEffect_short_circuit.1 Json idSurface docA docA (by decide) rfl,
   syncEffect_short_circuit.2.2 Json idSurface defaultContent defaultContent
     (by decide)⟩

/-- Claim C2, counterexample: `null` fails `isValidContent`, but feeding
it to the sync effect does not produce the default document: the
`if (editor && content)` guard makes the effect do nothing, so no
`setContent` call is issued and the surface keeps its current document
`docA`, which is not the default single-empty-paragraph document. -/
theorem syncEffect_null_counterexample :
    isValidContent Json.null = false ∧
    syncEffect idSurface Json.null docA = (docA, false) ∧
    idSurface.getJSON docA ≠ defaultContent := by decide

/-- Claim C2 (corrected): for every truthy externally supplied value
failing `isValidContent` — including `{}` and `{type:"doc"}` with no
`content` field — the sync effect calls `setContent(defaultContent,
false)` and stops; a falsy value such as `null`, however, short
circuits the `if (editor && content)` guard, so the effect does nothing
and the surface is left unchanged. -/
theorem syncEffect_invalid_fallback :
    (∀ (E : Type) (S : Surface E) (content : Json) (st : E),
        content.truthy = true → isValidContent content = false →
        syncEffect S content st = (S.setContent defaultContent, true)) ∧
    (∀ (E : Type) (S : Surface E) (content : Json) (st : E),
        content.truthy = false → syncEffect S content st = (st, false)) ∧
    isValidContent (.obj []) = false ∧
    isValidContent (.obj [("type", .str "doc")]) = false ∧
    isValidContent Json.null = false := by
  refine ⟨fun E S content st ht hv => ?_, fun E S content st ht => ?_,
          by decide, by decide, by decide⟩
  · simp [syncEffect, ht, hv]
  · simp [syncEffect, ht]

/-- Witness for C2's theorem: the fallback on the empty object `{}` and
the no-op on `null`, on the identity surface holding `docA`. -/
theorem syncEffect_invalid_fallback_witness :
    syncEffect idSurface (Json.obj []) docA = (idSurface.setContent defaultContent, true) ∧
    syncEffect idSurface Json.null docA = (docA, false) :=
  ⟨syncEffect_invalid_fallback.1 Json idSurface (Json.obj []) docA (by decide) (by decide),
   syncEffect_invalid_fallback.2.1 Json idSurface Json.null docA (by decide)⟩

/-- Claim C4 (confirmed): dropping a file whose declared media type is
not exactly `application/pdf` leaves the workflow in the Error state
with the message "Please upload a PDF file" and issues zero network
calls, whatever response the network would have produced. -/
theorem onDrop_rejects_non_pdf :
    ∀ (file : DroppedFile) (outcome : FetchOutcome) (s : SubmitState),
      file.type ≠ "application/pdf" →
      onDrop file outcome s = ⟨⟨none, wrongTypeError, false⟩, 0, []⟩ ∧
      getError (onDrop file outcome s).state = some "Please upload a PDF file" := by
  intro file outcome s h
  have hb : (file.type != "application/pdf") = true := bne_iff_ne.mpr h
  refine ⟨?_, ?_⟩ <;> simp [onDrop, hb, getError, wrongTypeError]

/-- Witness for C4: a `text/plain` drop, with a success response on the
network side that is never consulted. -/
theorem onDrop_rejects_non_pdf_witness :
    onDrop ⟨"text/plain"⟩ (FetchOutcome.response true (BodyParse.parsed docA))
        ⟨none, "", false⟩ = ⟨⟨none, wrongTypeError, false⟩, 0, []⟩ ∧
    getError (onDrop ⟨"text/plain"⟩ (FetchOutcome.response true (BodyParse.parsed docA))
        ⟨none, "", false⟩).state = some "Please upload a PDF file" :=
  onDrop_rejects_non_pdf ⟨"text/plain"⟩
    (FetchOutcome.response true (BodyParse.parsed docA)) ⟨none, "", false⟩ (by decide)

/-- Claim C5, counterexample: with a prior stored conversion result
(the default document), rejecting a `text/plain` drop does alter the
stored document — the handler's initial `setData(null)` clears it, so
the `getHtml` accessor no longer returns the prior result. -/
theorem onDrop_reject_clears_result_counterexample :
    getHtml (⟨some defaultContent, "", false⟩ : SubmitState) = some defaultContent ∧
    getHtml (onDrop ⟨"text/plain"⟩ (FetchOutcome.response true (BodyParse.parsed docA))
        ⟨some defaultContent, "", false⟩).state ≠ some defaultContent := by decide

/-- Claim C5 (corrected): rejecting a dropped file for having the wrong
media type clears the stored document: the drop handler resets the
stored result to `null` before validating the file type, so after the
rejection the current-result accessor returns `null` regardless of the
previously stored result. -/
theorem onDrop_reject_result_is_null :
    ∀ (file : DroppedFile) (outcome : FetchOutcome) (s : SubmitState),
      file.type ≠ "application/pdf" →
      getHtml (onDrop file outcome s).state = none := by
  intro file outcome s h
  have hb : (file.type != "application/pdf") = true := bne_iff_ne.mpr h
  simp [onDrop, hb, getHtml]

/-- Witness for C5's amended theorem at a concrete prior result. -/
theorem onDrop_reject_result_is_null_witness :
    getHtml (onDrop ⟨"text/plain"⟩ (FetchOutcome.response true (BodyParse.parsed docA))
        ⟨some defaultContent, "", false⟩).state = none :=
  onDrop_reject_result_is_null ⟨"text/plain"⟩
    (FetchOutcome.response true (BodyParse.parsed docA))
    ⟨some defaultContent, "", false⟩ (by decide)

/-- Claim C8, counterexample: a failure response whose body is not
valid JSON still ends in the Error state, but the message carried is
the `response.json()` parse failure's message — `response.json()` is
awaited before the status check — not the server-supplied or the
generic conversion-failure message. -/
theorem onDrop_failure_body_counterexample :
    (onDrop ⟨"application/pdf"⟩
        (FetchOutcome.response false (BodyParse.parseFail "Unexpected end of JSON input"))
        ⟨none, "", false⟩).state.error = "Unexpected end of JSON input" ∧
    "Unexpected end of JSON input" ≠ genericConvertError := by decide

/-- Claim C8 (corrected): for every failure response (non-ok status)
whose body parses as a JSON value other than `null`, the workflow
transitions to the Error state carrying `String(result.error)` — the
server-supplied `error` field coerced to a string, which for a string
field is that string itself — whenever the field is truthy, and the
generic "Failed to convert PDF" message whenever the field is absent
or falsy (empty string, `0`, `false`, `null`); when the body fails to
parse as JSON the workflow still reaches the Error state but carries
the parse exception's message, and when the body is JSON `null` it
carries the `TypeError` message of the `result.error` access. -/
theorem onDrop_failure_response :
    (∀ (s : SubmitState) (result v : Json),
        result.getField "error" = some v → v.truthy = true →
        (onDrop ⟨"application/pdf"⟩ (FetchOutcome.response false (BodyParse.parsed result)) s).state
          = ⟨none, jsString v, false⟩) ∧
    (∀ (s : SubmitState) (result v : Json),
        result.getField "error" = some v → v.truthy = false →
        (onDrop ⟨"application/pdf"⟩ (FetchOutcome.response false (BodyParse.parsed result)) s).state
          = ⟨none, genericConvertError, false⟩) ∧
    (∀ (s : SubmitState) (result : Json),
        result ≠ Json.null → result.getField "error" = none →
        (onDrop ⟨"application/pdf"⟩ (FetchOutcome.response false (BodyParse.parsed result)) s).state
          = ⟨none, genericConvertError, false⟩) ∧
    (∀ (s : SubmitState) (pmsg : String),
        (onDrop ⟨"application/pdf"⟩ (FetchOutcome.response false (BodyParse.parseFail pmsg)) s).state
          = ⟨none, pmsg, false⟩) ∧
    (∀ s : SubmitState,
        (onDrop ⟨"application/pdf"⟩ (FetchOutcome.response false (BodyParse.parsed Json.null)) s).state
          = ⟨none, nullFieldAccessError, false⟩) := by
  refine ⟨fun s result v hf ht => ?_, fun s result v hf ht => ?_,
          fun s result hn hf => ?_, fun s pmsg => rfl, fun s => rfl⟩
  · cases result with
    | obj fs => simp [onDrop, errorFieldMessage, hf, ht]
    | null => cases hf
    | bool b => cases hf
    | num n => cases hf
    | str s2 => cases hf
    | arr es => cases hf
  · cases result with
    | obj fs => simp [onDrop, errorFieldMessage, hf, ht]
    | null => cases hf
    | bool b => cases hf
    | num n => cases hf
    | str s2 => cases hf
    | arr es => cases hf
  · cases result with
    | null => exact absurd rfl hn
    | obj fs => simp [onDrop, errorFieldMessage, hf]
    | bool b => simp [onDrop, errorFieldMessage, hf]
    | num n => simp [onDrop, errorFieldMessage, hf]
    | str s2 => simp [onDrop, errorFieldMessage, hf]
    | arr es => simp [onDrop, errorFieldMessage, hf]

/-- Witness for C8's theorem: failure bodies carrying
`error: "conversion failed"` (a truthy string, carried verbatim),
`error: 42` (truthy but not a string, carried as its `String` coercion
"42"), `error: ""` (present but falsy, so the generic message), and no
`error` field at all (also the generic message). -/
theorem onDrop_failure_response_witness :
    (onDrop ⟨"application/pdf"⟩
        (FetchOutcome.response false (BodyParse.parsed (.obj [("error", .str "conversion failed")])))
        ⟨none, "", false⟩).state = ⟨none, "conversion failed", false⟩ ∧
    (onDrop ⟨"application/pdf"⟩
        (FetchOutcome.response false (BodyParse.parsed (.obj [("error", .num 42)])))
        ⟨none, "", false⟩).state = ⟨none, "42", false⟩ ∧
    (onDrop ⟨"application/pdf"⟩
        (FetchOutcome.response false (BodyParse.parsed (.obj [("error", .str "")])))
        ⟨none, "", false⟩).state = ⟨none, genericConvertError, false⟩ ∧
    (onDrop ⟨"application/pdf"⟩
        (FetchOutcome.response false (BodyParse.parsed (.obj [])))
        ⟨none, "", false⟩).state = ⟨none, genericConvertError, false⟩ :=
  ⟨onDrop_failure_response.1 ⟨none, "", false⟩ (.obj [("error", .str "conversion failed")])
      (.str "conversion failed") (by decide) (by decide),
   onDrop_failure_response.1 ⟨none, "", false⟩ (.obj [("error", .num 42)])
      (.num 42) (by decide) (by decide),
   onDrop_failure_response.2.1 ⟨none, "", false⟩ (.obj [("error", .str "")])
      (.str "") (by decide) (by decide),
   onDrop_failure_response.2.2.1 ⟨none, "", false⟩ (.obj []) (by decide) (by decide)⟩
